import Mathlib

/-!
Verification development for the ExaChem FCI driver
(`src/exachem/fci/fci.hpp`): the FCIDUMP generation routine
`generate_fcidump` and the orchestration routine `fci_driver`.

Numeric tensor contractions are embedded as functions over `ℚ`
(exact field arithmetic standing for the element type `T = double`);
the driver's file-system and process-group behaviour is embedded as
an explicit event trace, parametrised by the configuration flags,
the on-disk state and the process rank.
-/

namespace ExaChem

/-! ## Numeric semantics of the scheduled contractions -/

/-- The reconstruction of the full two-electron tensor from the Cholesky
vectors, `fci.hpp` line 133:
`full_v2(p, r, q, s) = cholVpr(p, r, cindex) * cholVpr(q, s, cindex)`,
with the repeated auxiliary label `cindex` summed (Einstein convention). -/
def full_v2 {n m : ℕ} (cholVpr : Fin n → Fin n → Fin m → ℚ)
    (p r q s : Fin n) : ℚ :=
  ∑ c : Fin m, cholVpr p r c * cholVpr q s c

/-- First contraction of the basis rotation, `fci.hpp` line 49:
`tmp(z1, nu) = lcao(mu, z1) * hcore(mu, nu)`, with `mu` summed. -/
def tmp {na nm : ℕ} (lcao : Matrix (Fin na) (Fin nm) ℚ)
    (hcore : Matrix (Fin na) (Fin na) ℚ) (z1 : Fin nm) (nu : Fin na) : ℚ :=
  ∑ mu : Fin na, lcao mu z1 * hcore mu nu

/-- Second contraction of the basis rotation, `fci.hpp` line 50:
`hcore_mo(z1, z2) = tmp(z1, nu) * lcao(nu, z2)`, with `nu` summed. -/
def hcore_mo {na nm : ℕ} (lcao : Matrix (Fin na) (Fin nm) ℚ)
    (hcore : Matrix (Fin na) (Fin na) ℚ) (z1 z2 : Fin nm) : ℚ :=
  ∑ nu : Fin na, tmp lcao hcore z1 nu * lcao nu z2

/-- The spec's statement of the one-electron export block: the matrix
product `LCAO^T * H * LCAO`.  Stated from the spec's words, for
comparison with `hcore_mo` (which is translated from the source). -/
def hcore_mo_spec {na nm : ℕ} (lcao : Matrix (Fin na) (Fin nm) ℚ)
    (hcore : Matrix (Fin na) (Fin na) ℚ) : Matrix (Fin nm) (Fin nm) ℚ :=
  lcao.transpose * hcore * lcao

/-! ## The scheduler program submitted by `generate_fcidump` -/

/-- One operation of a contraction-scheduler program. -/
inductive SchedOp where
  | alloc (t : String)
  | contract (target lhs rhs : String)
  | dealloc (t : String)
deriving DecidableEq, Repr

/-- The single scheduling unit submitted by `generate_fcidump`
(`fci.hpp` lines 48-51): allocate `tmp`, the two contractions of the
basis rotation, then deallocate `tmp` and `hcore` — all inside one
`sch.allocate(...)( ... )( ... ).deallocate(...).execute()` chain. -/
def fcidumpSched : List SchedOp :=
  [.alloc "tmp",
   .contract "tmp" "lcao" "hcore",
   .contract "hcore_mo" "tmp" "lcao",
   .dealloc "tmp",
   .dealloc "hcore"]

/-- Whether a scheduler operation is a contraction step. -/
def SchedOp.isContract : SchedOp → Bool
  | .contract _ _ _ => true
  | _ => false

/-! ## The symmetry-label vector built by `generate_fcidump` -/

/-- The fields of `SystemData` used by this driver. -/
structure SysData where
  nbf_orig : ℕ
  is_unrestricted : Bool

/-- `std::vector<int>::resize(n)`: truncate when shrinking, pad with
value-initialized elements (0) when growing. -/
def vresize (l : List ℤ) (n : ℕ) : List ℤ :=
  if n ≤ l.length then l.take n else l ++ List.replicate (n - l.length) 0

/-- The symmetry-label vector of `generate_fcidump`, `fci.hpp` lines
54-56: `std::vector<int> symvec(sys_data.nbf_orig)`, resized to
`2 * nbf_orig` when unrestricted, then `std::fill` with 1. -/
def symvec (sd : SysData) : List ℤ :=
  let v := List.replicate sd.nbf_orig (0 : ℤ)
  let v := if sd.is_unrestricted then vresize v (2 * sd.nbf_orig) else v
  v.map (fun _ => (1 : ℤ))

/-! ## Claim theorems: numeric contractions -/

/-- C1: The reconstructed two-electron tensor
`full_v2(p,r,q,s) = Σ_c cholVpr(p,r,c) * cholVpr(q,s,c)` satisfies the
exchange symmetry `V[p,r,q,s] = V[q,s,p,r]` for every valid index
tuple, exactly, with the same summation order over the auxiliary
index on both sides. -/
theorem full_v2_exchange_symm {n m : ℕ}
    (cholVpr : Fin n → Fin n → Fin m → ℚ) (p r q s : Fin n) :
    full_v2 cholVpr p r q s = full_v2 cholVpr q s p r := by
  unfold full_v2
  exact Finset.sum_congr rfl (fun c _ => mul_comm _ _)

/-- C2: `generate_fcidump` rotates the one-electron operator to the
molecular basis in exactly two contraction steps, and the result
equals the matrix product `LCAO^T * H * LCAO`; the scratch tensor
`tmp` and the atomic-basis operator `hcore` are deallocated in the
same scheduling unit that performs the contractions. -/
theorem generate_fcidump_rotation {na nm : ℕ}
    (lcao : Matrix (Fin na) (Fin nm) ℚ)
    (hcore : Matrix (Fin na) (Fin na) ℚ) (z1 z2 : Fin nm) :
    hcore_mo lcao hcore z1 z2 = hcore_mo_spec lcao hcore z1 z2 ∧
    (fcidumpSched.countP SchedOp.isContract = 2) ∧
    SchedOp.dealloc "tmp" ∈ fcidumpSched ∧
    SchedOp.dealloc "hcore" ∈ fcidumpSched := by
  refine ⟨?_, by decide, by decide, by decide⟩
  unfold hcore_mo hcore_mo_spec tmp
  simp [Matrix.mul_apply, Matrix.transpose_apply]

/-- C9: the symmetry-label vector has length `nbf_orig` when the
system is restricted and `2 * nbf_orig` when it is unrestricted, and
every element equals the neutral symmetry value 1. -/
theorem symvec_length_and_ones (sd : SysData) :
    (symvec sd).length =
      (if sd.is_unrestricted then 2 * sd.nbf_orig else sd.nbf_orig) ∧
    ∀ x ∈ symvec sd, x = (1 : ℤ) := by
  constructor
  · unfold symvec vresize
    cases h : sd.is_unrestricted
    · simp
    · simp [Nat.two_mul]
      split <;> simp_all
  · intro x hx
    unfold symvec at hx
    simp at hx
    exact hx.2

/-! ## The checkpoint section of `fci_driver` (`fci.hpp` lines 84-123)

The driver's file-system and process-group behaviour is embedded as an
explicit per-rank event trace over the configuration flags, the
on-disk state at entry, and the process rank. -/

/-- The two checkpoint flags of `CCSDOptions` read by `fci_driver`. -/
structure CCSDOptions where
  readt : Bool
  writet : Bool

/-- The on-disk state observed by the checkpoint section at entry:
whether the two checkpoint files and the checkpoint directory exist. -/
structure FsState where
  f1Exists : Bool
  v2Exists : Bool
  dirExists : Bool

/-- The checkpoint file paths built by `fci_driver`. -/
structure Paths where
  files_dir : String
  f1file : String
  v2file : String
  cholfile : String

/-- `out_fp` of `fci_driver`, line 84:
`sys_data.output_file_prefix + "." + ccsd_options.basis`. -/
def driver_out_fp (outPfx basis : String) : String :=
  outPfx ++ "." ++ basis

/-- `files_dir` of `fci_driver`, line 85. -/
def driver_files_dir (outPfx basis scf : String) : String :=
  driver_out_fp outPfx basis ++ "_files/" ++ scf

/-- `files_prefix` of `fci_driver`, line 86. -/
def driver_files_pfx (outPfx basis scf : String) : String :=
  driver_files_dir outPfx basis scf ++ "/" ++ driver_out_fp outPfx basis

/-- The paths of lines 85-89: `files_dir`, `.f1_mo`, `.cholv2`,
`.cholcount`. -/
def mkPaths (outPfx basis scf : String) : Paths :=
  { files_dir := driver_files_dir outPfx basis scf
    f1file := driver_files_pfx outPfx basis scf ++ ".f1_mo"
    v2file := driver_files_pfx outPfx basis scf ++ ".cholv2"
    cholfile := driver_files_pfx outPfx basis scf ++ ".cholcount" }

/-- Observable file-system / process-group events of one rank. -/
inductive Event where
  | readDisk (file : String)
  | writeDisk (file : String)
  | createDirs (dir : String)
  | cerrMsg (file : String)
  | writeCountLine (file : String) (count : ℕ)
  | barrier
  | abortAll
  | schedExec (prog : List SchedOp)
  | writeFcidump (file : String)
deriving DecidableEq, Repr

/-- `ccsd_restart` of `fci_driver`, line 93:
`ccsd_options.readt || (fs::exists(f1file) && fs::exists(v2file))`. -/
def ccsd_restart (opts : CCSDOptions) (fs : FsState) : Bool :=
  opts.readt || (fs.f1Exists && fs.v2Exists)

/-- Whether the `else if(ccsd_options.writet)` branch of line 108 is
taken: the restore branch was not taken and the write flag is set. -/
def takesPersist (opts : CCSDOptions) (fs : FsState) : Bool :=
  !ccsd_restart opts fs && opts.writet

/-- The per-rank event trace of the checkpoint section of
`fci_driver`, lines 102-123.  `openFails` says whether the
`std::ofstream` open of the count file fails on this rank (line 117:
on failure the code prints to `cerr` and carries on; the stream write
then has no file-system effect). The trailing `barrier` is the
unconditional one of line 123. -/
def checkpointTrace (P : Paths) (opts : CCSDOptions) (fs : FsState)
    (rank : ℕ) (chol_count : ℕ) (openFails : Bool) : List Event :=
  (if ccsd_restart opts fs then
    [.readDisk P.f1file, .readDisk P.v2file, .barrier]
  else if opts.writet then
    (if !fs.dirExists then [.createDirs P.files_dir] else []) ++
    [.writeDisk P.f1file, .writeDisk P.v2file] ++
    (if rank = 0 then
      (if openFails then [.cerrMsg P.cholfile]
       else [.writeCountLine P.cholfile chol_count])
     else [])
  else []) ++ [.barrier]

/-- Whether an event reads or writes the named file. -/
def Event.touches (e : Event) (f : String) : Bool :=
  match e with
  | .readDisk g => g = f
  | .writeDisk g => g = f
  | .writeCountLine g _ => g = f
  | _ => false

/-- The guarded directory creation of line 110:
`if(!fs::exists(files_dir)) fs::create_directories(files_dir);`,
acting on the set of existing directories. -/
def ensureDir (dirs : List String) (d : String) : List String :=
  if d ∈ dirs then dirs else d :: dirs

/-! ## Claim theorems: checkpoint branches -/

/-- C3: the restore branch is taken exactly when the restart flag is
set or both checkpoint files exist; in that branch the trace is: read
the one-electron operator file, read the factorized-vector file, then
a process-group barrier, before anything else (the final event is the
unconditional barrier of line 123). -/
theorem fci_driver_restore_branch (P : Paths) (opts : CCSDOptions)
    (fs : FsState) (rank chol_count : ℕ) (openFails : Bool) :
    (ccsd_restart opts fs = true ↔
      opts.readt = true ∨ (fs.f1Exists = true ∧ fs.v2Exists = true)) ∧
    (ccsd_restart opts fs = true →
      checkpointTrace P opts fs rank chol_count openFails =
        [.readDisk P.f1file, .readDisk P.v2file, .barrier, .barrier]) := by
  constructor
  · unfold ccsd_restart
    cases opts.readt <;> cases fs.f1Exists <;> cases fs.v2Exists <;> simp
  · intro h
    unfold checkpointTrace
    rw [h]
    simp

/-- Closed witness for `fci_driver_restore_branch`. -/
theorem fci_driver_restore_branch_witness :
    (ccsd_restart ⟨true, false⟩ ⟨false, false, false⟩ = true ↔
      (true : Bool) = true ∨ ((false : Bool) = true ∧ (false : Bool) = true)) ∧
    (ccsd_restart ⟨true, false⟩ ⟨false, false, false⟩ = true →
      checkpointTrace (mkPaths "h2o" "sto-3g" "rhf") ⟨true, false⟩
          ⟨false, false, false⟩ 1 3 false =
        [.readDisk (mkPaths "h2o" "sto-3g" "rhf").f1file,
         .readDisk (mkPaths "h2o" "sto-3g" "rhf").v2file,
         .barrier, .barrier]) :=
  fci_driver_restore_branch (mkPaths "h2o" "sto-3g" "rhf")
    ⟨true, false⟩ ⟨false, false, false⟩ 1 3 false

/-- C4: the persist branch is taken exactly when the write flag is set
and the restore branch was not taken; in that branch the checkpoint
directory is created only when absent (and guarded creation is
idempotent and leaves an existing directory set unchanged), both
tensors are written, and the scalar vector-count line is written by
rank 0 only — no event of any other rank touches the count file. -/
theorem fci_driver_persist_branch (P : Paths) (opts : CCSDOptions)
    (fs : FsState) (rank chol_count : ℕ) (dirs : List String) :
    (takesPersist opts fs = true ↔
      opts.writet = true ∧ ccsd_restart opts fs = false) ∧
    (takesPersist opts fs = true →
      checkpointTrace P opts fs 0 chol_count false =
        (if !fs.dirExists then [.createDirs P.files_dir] else []) ++
        [.writeDisk P.f1file, .writeDisk P.v2file,
         .writeCountLine P.cholfile chol_count, .barrier]) ∧
    (fs.dirExists = true →
      Event.createDirs P.files_dir ∉
        checkpointTrace P opts fs rank chol_count false) ∧
    (ensureDir (ensureDir dirs P.files_dir) P.files_dir =
      ensureDir dirs P.files_dir) ∧
    (P.files_dir ∈ dirs → ensureDir dirs P.files_dir = dirs) ∧
    (rank ≠ 0 → ∀ f c,
      Event.writeCountLine f c ∉
        checkpointTrace P opts fs rank chol_count false) := by
  refine ⟨?_, ?_, ?_, ?_, ?_, ?_⟩
  · unfold takesPersist ccsd_restart
    cases opts.readt <;> cases opts.writet <;> cases fs.f1Exists <;>
      cases fs.v2Exists <;> simp
  · intro h
    unfold takesPersist at h
    simp only [Bool.and_eq_true, Bool.not_eq_true'] at h
    unfold checkpointTrace
    rw [h.1, h.2]
    simp
  · intro hd
    unfold checkpointTrace
    split
    · simp
    · split
      · rw [hd]
        simp
      · simp
  · by_cases h : P.files_dir ∈ dirs <;> simp [ensureDir, h]
  · intro h
    simp [ensureDir, h]
  · intro hr f c
    unfold checkpointTrace
    split
    · simp
    · split
      · simp [hr]
      · simp

/-- Closed witness for `fci_driver_persist_branch`: on a fresh disk
with only the write flag set, rank 0's trace creates the directory,
writes both tensors, writes the count line, and ends at the barrier. -/
theorem fci_driver_persist_branch_witness :
    checkpointTrace (mkPaths "h2o" "sto-3g" "rhf") ⟨false, true⟩
        ⟨false, false, false⟩ 0 3 false =
      [.createDirs (mkPaths "h2o" "sto-3g" "rhf").files_dir,
       .writeDisk (mkPaths "h2o" "sto-3g" "rhf").f1file,
       .writeDisk (mkPaths "h2o" "sto-3g" "rhf").v2file,
       .writeCountLine (mkPaths "h2o" "sto-3g" "rhf").cholfile 3,
       .barrier] := by
  have h := (fci_driver_persist_branch (mkPaths "h2o" "sto-3g" "rhf")
    ⟨false, true⟩ ⟨false, false, false⟩ 0 3 []).2.1 (by decide)
  simpa using h

/-- C7 counterexample: on rank 0 in the persist branch, with the open
of the count file failing, the trace contains no collective abort —
the code of lines 115-120 prints `"Error opening file ..."` to `cerr`
and carries on, so the claim that a local file-open failure is
converted into a collective abort is false on the code. -/
theorem fci_driver_open_failure_no_abort :
    takesPersist ⟨false, true⟩ ⟨false, false, false⟩ = true ∧
    Event.abortAll ∉
      checkpointTrace (mkPaths "h2o" "sto-3g" "rhf") ⟨false, true⟩
        ⟨false, false, false⟩ 0 3 true := by
  constructor
  · decide
  · decide

/-- C7 amended: when the designated writer (rank 0) fails to open the
count file in the persist branch, it emits a diagnostic message and
execution continues to the trailing barrier; no collective abort is
performed and the process group is not terminated. -/
theorem fci_driver_open_failure_continues (P : Paths)
    (opts : CCSDOptions) (fs : FsState) (chol_count : ℕ)
    (h : takesPersist opts fs = true) :
    Event.cerrMsg P.cholfile ∈
      checkpointTrace P opts fs 0 chol_count true ∧
    Event.abortAll ∉ checkpointTrace P opts fs 0 chol_count true ∧
    ∃ pre, checkpointTrace P opts fs 0 chol_count true =
      pre ++ [Event.barrier] := by
  unfold takesPersist at h
  simp only [Bool.and_eq_true, Bool.not_eq_true'] at h
  refine ⟨?_, ?_, ?_⟩
  · unfold checkpointTrace
    rw [h.1, h.2]
    simp
  · unfold checkpointTrace
    rw [h.1, h.2]
    simp
  · exact ⟨_, rfl⟩

/-- Closed witness for `fci_driver_open_failure_continues`. -/
theorem fci_driver_open_failure_continues_witness :
    Event.cerrMsg (mkPaths "h2o" "sto-3g" "rhf").cholfile ∈
      checkpointTrace (mkPaths "h2o" "sto-3g" "rhf") ⟨false, true⟩
        ⟨false, false, true⟩ 0 3 true ∧
    Event.abortAll ∉
      checkpointTrace (mkPaths "h2o" "sto-3g" "rhf") ⟨false, true⟩
        ⟨false, false, true⟩ 0 3 true ∧
    ∃ pre, checkpointTrace (mkPaths "h2o" "sto-3g" "rhf") ⟨false, true⟩
        ⟨false, false, true⟩ 0 3 true = pre ++ [Event.barrier] :=
  fci_driver_open_failure_continues (mkPaths "h2o" "sto-3g" "rhf")
    ⟨false, true⟩ ⟨false, false, true⟩ 3 (by decide)

/-- C8: with neither flag set and no checkpoint files on disk, the
checkpoint section performs no checkpoint I/O at all — its whole trace
is the single unconditional barrier of line 123, so no file is read,
written, or otherwise touched before reconstruction proceeds. -/
theorem fci_driver_ephemeral_no_io (P : Paths) (fs : FsState)
    (rank chol_count : ℕ) (openFails : Bool)
    (h1 : fs.f1Exists = false) :
    checkpointTrace P ⟨false, false⟩ fs rank chol_count openFails =
      [.barrier] ∧
    ∀ f, ∀ e ∈ checkpointTrace P ⟨false, false⟩ fs rank chol_count
      openFails, Event.touches e f = false := by
  have ht : checkpointTrace P ⟨false, false⟩ fs rank chol_count
      openFails = [.barrier] := by
    unfold checkpointTrace ccsd_restart
    rw [h1]
    simp
  refine ⟨ht, ?_⟩
  intro f e he
  rw [ht] at he
  simp at he
  rw [he]
  rfl

/-- Closed witness for `fci_driver_ephemeral_no_io`. -/
theorem fci_driver_ephemeral_no_io_witness :
    checkpointTrace (mkPaths "h2o" "sto-3g" "rhf") ⟨false, false⟩
        ⟨false, false, false⟩ 2 3 false = [.barrier] ∧
    ∀ f, ∀ e ∈ checkpointTrace (mkPaths "h2o" "sto-3g" "rhf")
        ⟨false, false⟩ ⟨false, false, false⟩ 2 3 false,
      Event.touches e f = false :=
  fci_driver_ephemeral_no_io (mkPaths "h2o" "sto-3g" "rhf")
    ⟨false, false, false⟩ 2 3 false (by decide)

/-! ## Fallible disk reads (restore with missing files) -/

/-- A run-time error of the pipeline. -/
inductive RunError where
  | ioError (file : String)
deriving DecidableEq, Repr

/-- Modelled from the spec: `read_from_disk` — the TAMM
distributed-tensor disk read invoked at lines 44, 103 and 104, whose
implementation lives outside `src/` — fails with an IOError when the
named file is absent on disk (spec §4.2 disk-read contract and §7
error taxonomy: IOError is file open/read failure). -/
def read_from_disk (disk : List String) (f : String) :
    Except RunError Unit :=
  if f ∈ disk then .ok () else .error (.ioError f)

/-- The checkpoint section with fallible reads: in the restore branch
the two `read_from_disk` calls of lines 103-104 may fail; the persist
and ephemeral branches read nothing. On success the event trace is
produced. -/
def runCheckpoint (disk : List String) (P : Paths)
    (opts : CCSDOptions) (fs : FsState) (rank chol_count : ℕ)
    (openFails : Bool) : Except RunError (List Event) :=
  if ccsd_restart opts fs then
    match read_from_disk disk P.f1file, read_from_disk disk P.v2file with
    | .ok _, .ok _ =>
        .ok (checkpointTrace P opts fs rank chol_count openFails)
    | .error e, _ => .error e
    | _, .error e => .error e
  else .ok (checkpointTrace P opts fs rank chol_count openFails)

/-- C6: when the restart flag is set but the one-electron checkpoint
file is absent from disk, the restore branch is still taken and the
run fails with an IOError on that file; it never completes as if it
had recomputed the tensors (no trace is produced at all). -/
theorem fci_driver_restore_missing_file_errors (disk : List String)
    (P : Paths) (opts : CCSDOptions) (fs : FsState)
    (rank chol_count : ℕ) (openFails : Bool)
    (hr : opts.readt = true) (h1 : P.f1file ∉ disk) :
    ccsd_restart opts fs = true ∧
    runCheckpoint disk P opts fs rank chol_count openFails =
      .error (.ioError P.f1file) ∧
    ∀ t, runCheckpoint disk P opts fs rank chol_count openFails ≠
      .ok t := by
  have hres : ccsd_restart opts fs = true := by
    unfold ccsd_restart
    rw [hr]
    simp
  have hrun : runCheckpoint disk P opts fs rank chol_count openFails =
      .error (.ioError P.f1file) := by
    unfold runCheckpoint read_from_disk
    rw [hres]
    simp [h1]
  exact ⟨hres, hrun, fun t => by rw [hrun]; intro h; cases h⟩

/-- Closed witness for `fci_driver_restore_missing_file_errors`: an
empty disk with the restart flag set. -/
theorem fci_driver_restore_missing_file_errors_witness :
    ccsd_restart ⟨true, false⟩ ⟨false, false, false⟩ = true ∧
    runCheckpoint [] (mkPaths "h2o" "sto-3g" "rhf") ⟨true, false⟩
        ⟨false, false, false⟩ 0 3 false =
      .error (.ioError (mkPaths "h2o" "sto-3g" "rhf").f1file) ∧
    ∀ t, runCheckpoint [] (mkPaths "h2o" "sto-3g" "rhf") ⟨true, false⟩
        ⟨false, false, false⟩ 0 3 false ≠ .ok t :=
  fci_driver_restore_missing_file_errors [] (mkPaths "h2o" "sto-3g" "rhf")
    ⟨true, false⟩ ⟨false, false, false⟩ 0 3 false rfl (by decide)

/-! ## The trace of `generate_fcidump` (`fci.hpp` lines 38-60) -/

/-- `out_fp` of `generate_fcidump`, line 38. -/
def gen_out_fp (outPfx basis : String) : String :=
  outPfx ++ "." ++ basis

/-- `files_dir` of `generate_fcidump`, line 39:
`out_fp + "_files/" + scf_type + "/fci"`. -/
def gen_files_dir (outPfx basis scf : String) : String :=
  gen_out_fp outPfx basis ++ "_files/" ++ scf ++ "/fci"

/-- `files_prefix` of `generate_fcidump`, line 40. -/
def gen_files_pfx (outPfx basis scf : String) : String :=
  gen_files_dir outPfx basis scf ++ "/" ++ gen_out_fp outPfx basis

/-- `hcorefile` of `generate_fcidump`, line 43:
`files_dir + "/../scf/" + out_fp + ".hcore"`. -/
def hcorefile (outPfx basis scf : String) : String :=
  gen_files_dir outPfx basis scf ++ "/../scf/" ++
    gen_out_fp outPfx basis ++ ".hcore"

/-- The event trace of `generate_fcidump` (lines 41-60): guarded
creation of its own output directory, the unconditional read of the
SCF-stage hcore file, the scheduled basis rotation, and the FCIDUMP
write. -/
def generate_fcidump_trace (outPfx basis scf : String)
    (dirExists : Bool) : List Event :=
  (if !dirExists then [.createDirs (gen_files_dir outPfx basis scf)]
   else []) ++
  [.readDisk (hcorefile outPfx basis scf),
   .schedExec fcidumpSched,
   .writeFcidump (gen_files_pfx outPfx basis scf ++ ".fcidump")]

/-- The trace of one whole `fci_driver` run at this abstraction: the
checkpoint section (lines 93-123) followed by `generate_fcidump`
(line 138). -/
def fci_driver_trace (P : Paths) (opts : CCSDOptions) (fs : FsState)
    (rank chol_count : ℕ) (openFails : Bool)
    (outPfx basis scf : String) (genDirExists : Bool) : List Event :=
  checkpointTrace P opts fs rank chol_count openFails ++
    generate_fcidump_trace outPfx basis scf genDirExists

/-- `generate_fcidump` with the fallible hcore read of line 44. -/
def run_generate_fcidump (disk : List String)
    (outPfx basis scf : String) (dirExists : Bool) :
    Except RunError (List Event) :=
  match read_from_disk disk (hcorefile outPfx basis scf) with
  | .ok _ => .ok (generate_fcidump_trace outPfx basis scf dirExists)
  | .error e => .error e

/-- C10: every `fci_driver` run — whatever the flags and on-disk state
— reaches the unconditional read of the SCF-stage hcore file at
`files_dir + "/../scf/" + out_fp + ".hcore"`, placed before the basis
rotation and the export; and a successful `generate_fcidump` requires
that file to exist on disk. -/
theorem generate_fcidump_reads_scf_hcore (P : Paths)
    (opts : CCSDOptions) (fs : FsState) (rank chol_count : ℕ)
    (openFails : Bool) (outPfx basis scf : String)
    (genDirExists : Bool) :
    (hcorefile outPfx basis scf =
      gen_files_dir outPfx basis scf ++ "/../scf/" ++
        gen_out_fp outPfx basis ++ ".hcore") ∧
    (Event.readDisk (hcorefile outPfx basis scf) ∈
      fci_driver_trace P opts fs rank chol_count openFails
        outPfx basis scf genDirExists) ∧
    (∃ pre, generate_fcidump_trace outPfx basis scf genDirExists =
      pre ++ [.readDisk (hcorefile outPfx basis scf),
              .schedExec fcidumpSched,
              .writeFcidump (gen_files_pfx outPfx basis scf ++
                ".fcidump")]) ∧
    (∀ disk t, run_generate_fcidump disk outPfx basis scf genDirExists
        = .ok t → hcorefile outPfx basis scf ∈ disk) := by
  refine ⟨rfl, ?_, ⟨_, rfl⟩, ?_⟩
  · unfold fci_driver_trace generate_fcidump_trace
    simp
  · intro disk t h
    unfold run_generate_fcidump read_from_disk at h
    by_cases hd : hcorefile outPfx basis scf ∈ disk
    · exact hd
    · simp [hd] at h

/-- Closed witness for `generate_fcidump_reads_scf_hcore`. -/
theorem generate_fcidump_reads_scf_hcore_witness :
    hcorefile "h2o" "sto-3g" "rhf" =
      gen_files_dir "h2o" "sto-3g" "rhf" ++ "/../scf/" ++
        gen_out_fp "h2o" "sto-3g" ++ ".hcore" ∧
    Event.readDisk (hcorefile "h2o" "sto-3g" "rhf") ∈
      fci_driver_trace (mkPaths "h2o" "sto-3g" "rhf") ⟨false, false⟩
        ⟨false, false, false⟩ 0 3 false "h2o" "sto-3g" "rhf" false :=
  ⟨(generate_fcidump_reads_scf_hcore (mkPaths "h2o" "sto-3g" "rhf")
      ⟨false, false⟩ ⟨false, false, false⟩ 0 3 false
      "h2o" "sto-3g" "rhf" false).1,
   (generate_fcidump_reads_scf_hcore (mkPaths "h2o" "sto-3g" "rhf")
      ⟨false, false⟩ ⟨false, false, false⟩ 0 3 false
      "h2o" "sto-3g" "rhf" false).2.1⟩

/-! ## Whole-pipeline value semantics: restart equivalence -/

/-- Modelled from the spec: the deterministic upstream stage results —
`cd_svd_driver` (external to `src/`) yields, for a fixed input, fixed
values of `d_f1`, the Cholesky vectors and the vector count, and the
SCF stage yields fixed LCAO coefficients and a fixed atomic-basis
one-electron operator (spec §2 data flow and §6 upstream contract). -/
structure PipelineInputs (n m na : ℕ) where
  computeF1 : Fin n → Fin n → ℚ
  computeChol : Fin n → Fin n → Fin m → ℚ
  lcao : Matrix (Fin na) (Fin n) ℚ
  hcoreAO : Matrix (Fin na) (Fin na) ℚ
  sd : SysData

/-- Modelled from the spec: the checkpoint contents on disk; a tensor
written by `write_to_disk` reads back identically through
`read_from_disk` (spec §8 round-trip property; both routines are
external to `src/`). -/
structure DiskState (n m : ℕ) where
  f1 : Option (Fin n → Fin n → ℚ)
  v2 : Option (Fin n → Fin n → Fin m → ℚ)
  count : Option ℕ

/-- A disk holding no checkpoint files. -/
def emptyDisk (n m : ℕ) : DiskState n m := ⟨none, none, none⟩

/-- The observation at the exporter interface: the values handed to
`fcidump::write_fcidump_file` at line 60 — the rotated one-electron
block, the reconstructed two-electron tensor, and the symmetry-label
vector. -/
structure ExportArgs (n : ℕ) where
  hmo : Fin n → Fin n → ℚ
  v4 : Fin n → Fin n → Fin n → Fin n → ℚ
  sym : List ℤ

/-- What `generate_fcidump` hands to the exporter, given the Cholesky
vectors in effect after the checkpoint section: the rotation of lines
49-50 applied to the SCF hcore, the reconstruction of line 133, and
the symmetry vector of lines 54-56.  (`d_f1` is passed to
`generate_fcidump` but never used in its body, so the export does not
depend on it.) -/
def mkExport {n m na : ℕ} (inp : PipelineInputs n m na)
    (v2v : Fin n → Fin n → Fin m → ℚ) : ExportArgs n :=
  { hmo := fun z1 z2 => hcore_mo inp.lcao inp.hcoreAO z1 z2
    v4 := fun p r q s => full_v2 v2v p r q s
    sym := symvec inp.sd }

/-- One `fci_driver` run at the value level: the branch decision of
line 93 over the disk state, the restore reads of lines 103-104, the
persist writes of lines 112-118, and the export of line 138. -/
def runPipeline {n m na : ℕ} (inp : PipelineInputs n m na)
    (opts : CCSDOptions) (d : DiskState n m) :
    Except RunError (ExportArgs n × DiskState n m) :=
  if opts.readt || (d.f1.isSome && d.v2.isSome) then
    match d.f1, d.v2 with
    | some _, some v2v => .ok (mkExport inp v2v, d)
    | none, _ => .error (.ioError ".f1_mo")
    | some _, none => .error (.ioError ".cholv2")
  else
    let d' := if opts.writet then
        DiskState.mk (some inp.computeF1) (some inp.computeChol)
          (some m)
      else d
    .ok (mkExport inp inp.computeChol, d')

/-- C5: a run with the persist flag on a fresh disk, followed by a run
with the restore flag on the resulting disk, hands the exporter
exactly the same values as a single run with no checkpointing — the
restore path and the recompute path are observationally equivalent at
the exporter interface (exactly, in this exact-arithmetic model). -/
theorem fci_driver_restart_equivalence {n m na : ℕ}
    (inp : PipelineInputs n m na) :
    ∃ a1, runPipeline inp ⟨false, true⟩ (emptyDisk n m) = .ok a1 ∧
    ∃ a2, runPipeline inp ⟨true, false⟩ a1.2 = .ok a2 ∧
    ∃ a0, runPipeline inp ⟨false, false⟩ (emptyDisk n m) = .ok a0 ∧
      a2.1 = a0.1 := by
  refine ⟨_, rfl, _, rfl, _, rfl, rfl⟩

end ExaChem
